import Mathlib

/-!
Shallow embedding of the persistent delivery agent implemented in
`android/app/src/main/java/com/devicetracker/LocationTrackingService.kt`.

The service is callback-driven Android code; the embedding models its
mutable fields as an explicit `ServiceState` record and each handler as a
state transformer.  Network sends are asynchronous in the source (posted to
a single-threaded executor); here every send body runs as one step and its
result is supplied as an explicit `SendOutcome` argument, which matches the
single-flight serialized execution of the real executor.  In a queue drain
the send bodies are only posted to the very executor the drain task
occupies, so they run — in posting order — after the drain has polled
every entry; the embedding keeps that ordering.  Behaviour that
depends only on the host platform (notification posting, wake-lock timers,
logging) is not modelled; the fields the service itself reads and writes
are kept faithfully.
-/

namespace DeviceTracker

/-- `MAX_QUEUE_SIZE` from the service: bound on the offline location queue. -/
def MAX_QUEUE_SIZE : Nat := 100

/-- `MAX_CONSECUTIVE_FAILURES` from the service: failure streak before the
persisted health status becomes "stale". -/
def MAX_CONSECUTIVE_FAILURES : Nat := 5

/-- One position sample (the fields of `android.location.Location` the
service reads: latitude, longitude, accuracy).  `sampleId` tags sample
identity so that distinct samples can be told apart in the queue. -/
structure Location where
  latitude : Rat
  longitude : Rat
  accuracy : Rat
  sampleId : Nat
deriving DecidableEq, Repr

/-- Result of one HTTP POST attempt in `sendLocationToServer`:
an HTTP response with a status code, an `IOException`, or any other
exception (the three handlers in the source). -/
inductive SendOutcome where
  | response (code : Int)
  | ioError
  | otherError
deriving DecidableEq, Repr

/-- The durable `"LocationTrackingState"` SharedPreferences: keys
`device_id`, `server_url`, `is_tracking`. -/
structure TrackingPrefs where
  device_id : Option String
  server_url : Option String
  is_tracking : Bool
deriving DecidableEq, Repr

/-- The mutable state of `LocationTrackingService`, together with the two
SharedPreferences namespaces it writes (`prefs` = "LocationTrackingState";
`savedStatus`/`savedLastSuccess` = the "LocationTrackingHealth" keys
`service_status` and `last_successful_send`).  `wakeLockHeld`,
`subscriptions` record resource acquisition; `gpsProviderEnabled` /
`networkProviderEnabled` are the platform readings consulted by
`startTracking`. -/
structure ServiceState where
  isTracking : Bool
  deviceId : Option String
  serverUrl : Option String
  isNetworkAvailable : Bool
  locationQueue : List Location
  lastSuccessfulSendTime : Int
  consecutiveFailures : Nat
  prefs : TrackingPrefs
  savedStatus : Option String
  savedLastSuccess : Int
  wakeLockHeld : Bool
  subscriptions : Nat
  gpsProviderEnabled : Bool
  networkProviderEnabled : Bool
deriving DecidableEq, Repr

/-- The guarded offer pattern used at every enqueue site of the source:
`if (locationQueue.size < MAX_QUEUE_SIZE) locationQueue.offer(location)`.
`ConcurrentLinkedQueue.offer` appends at the tail; on a full queue the new
sample is simply not offered. -/
def enqueue (q : List Location) (loc : Location) : List Location :=
  if q.length < MAX_QUEUE_SIZE then q ++ [loc] else q

/-- `saveHealthData(status)`: writes `last_successful_send` (the current
`lastSuccessfulSendTime` field) and `service_status` to the
"LocationTrackingHealth" preferences. -/
def saveHealthData (s : ServiceState) (status : String) : ServiceState :=
  { s with savedLastSuccess := s.lastSuccessfulSendTime, savedStatus := some status }

/-- The block `if (consecutiveFailures >= MAX_CONSECUTIVE_FAILURES)
saveHealthData("stale")` that ends each failure handler of
`sendLocationToServer`. -/
def staleCheck (s : ServiceState) : ServiceState :=
  if MAX_CONSECUTIVE_FAILURES ≤ s.consecutiveFailures then saveHealthData s "stale" else s

/-- `sendLocationToServer(location, isQueued)`.  The executor body:
if the network is believed unavailable and this is a direct (non-queued)
send, the sample is queued instead of sent; otherwise the POST is
attempted and `outcome` is its result.  A 2xx response records a success
(`lastSuccessfulSendTime = now`, failure streak reset, status "online").
A non-2xx response increments the failure streak and re-reads connectivity
(`checkNetworkState()`, whose platform reading is the `netCheck`
argument; the flush it may schedule runs later on the executor and is
modelled as a separate `Step.flush`).  An `IOException` increments the
streak, marks the network unavailable and re-queues the sample only when
`isQueued` is false; any other exception increments the streak and
re-reads connectivity.  Each failure handler ends with the stale check. -/
def sendLocationToServer (s : ServiceState) (loc : Location) (isQueued : Bool)
    (outcome : SendOutcome) (now : Int) (netCheck : Bool) : ServiceState :=
  if s.isNetworkAvailable = false ∧ isQueued = false then
    { s with locationQueue := enqueue s.locationQueue loc }
  else
    match outcome with
    | SendOutcome.response code =>
        if 200 ≤ code ∧ code ≤ 299 then
          saveHealthData { s with lastSuccessfulSendTime := now,
                                  consecutiveFailures := 0,
                                  isNetworkAvailable := true } "online"
        else
          staleCheck { s with consecutiveFailures := s.consecutiveFailures + 1,
                              isNetworkAvailable := netCheck }
    | SendOutcome.ioError =>
        staleCheck
          (if s.locationQueue.length < MAX_QUEUE_SIZE ∧ isQueued = false then
            { s with consecutiveFailures := s.consecutiveFailures + 1,
                     isNetworkAvailable := false,
                     locationQueue := s.locationQueue ++ [loc] }
          else
            { s with consecutiveFailures := s.consecutiveFailures + 1,
                     isNetworkAvailable := false })
    | SendOutcome.otherError =>
        staleCheck { s with consecutiveFailures := s.consecutiveFailures + 1,
                            isNetworkAvailable := netCheck }

/-- What `onLocationChanged` did with a sample; used to state where a
sample went (the source logs the corresponding branch). -/
inductive Disposition where
  | ignored
  | droppedAccuracy
  | notForwarded
  | sentImmediate
  | queuedOffline
  | droppedQueueFull
deriving DecidableEq, Repr

/-- `onLocationChanged(location)`: returns when not tracking; drops any
sample with accuracy above 50 m; a sample with accuracy at most 30 m (and
identity/endpoint configured) is sent immediately when the network is
believed available, otherwise offered to the queue when there is room and
dropped ("queue full") when not; all remaining samples fall through with
no effect.  (`lastLocation` and the notification updates are not
modelled.) -/
def onLocationChanged (s : ServiceState) (loc : Location) (outcome : SendOutcome)
    (now : Int) (netCheck : Bool) : ServiceState × Disposition :=
  if s.isTracking = false then (s, Disposition.ignored)
  else if 50 < loc.accuracy then (s, Disposition.droppedAccuracy)
  else if loc.accuracy ≤ 30 ∧ s.deviceId.isSome = true ∧ s.serverUrl.isSome = true then
    if s.isNetworkAvailable = true then
      (sendLocationToServer s loc false outcome now netCheck, Disposition.sentImmediate)
    else if s.locationQueue.length < MAX_QUEUE_SIZE then
      ({ s with locationQueue := s.locationQueue ++ [loc] }, Disposition.queuedOffline)
    else (s, Disposition.droppedQueueFull)
  else (s, Disposition.notForwarded)

/-- The send bodies posted by one drain of `flushLocationQueue`, run in
posting order.  The drain loop (`while (locationQueue.isNotEmpty() &&
isNetworkAvailable) { poll; sendLocationToServer(location, isQueued =
true) }`) itself runs ON the single-threaded executor, and
`sendLocationToServer` only POSTS its body to that same executor, so no
send body can run — and none of its effects, such as flipping
`isNetworkAvailable`, can be observed — while the drain task holds the
thread: the loop polls every entry and posts one send per entry in queue
order.  The executor then runs the posted bodies first-in first-out,
which is this fold; `outs` lists their results (the trace covers as many
sends as results are supplied).  The `catch` around the post in the
source is reachable only through executor/sleep faults, never through a
send failure, and contributes no transition. -/
def runPostedSends (s : ServiceState) (locs : List Location) (outs : List SendOutcome)
    (now : Int) (netCheck : Bool) : ServiceState :=
  match locs, outs with
  | [], _ => s
  | _ :: _, [] => s
  | loc :: ls, out :: os =>
      runPostedSends (sendLocationToServer s loc true out now netCheck) ls os now netCheck

/-- `flushLocationQueue()`: returns immediately when the network is
believed unavailable or the queue is empty; otherwise the drain task
empties the queue, posting one send per polled entry, and the posted
send bodies then run in order. -/
def flushLocationQueue (s : ServiceState) (outs : List SendOutcome) (now : Int)
    (netCheck : Bool) : ServiceState :=
  if s.isNetworkAvailable = false ∨ s.locationQueue = [] then s
  else runPostedSends { s with locationQueue := [] } s.locationQueue outs now netCheck

/-- `saveStateToPreferences()`: persists the current identity/endpoint and
`is_tracking = true` into "LocationTrackingState". -/
def saveStateToPreferences (s : ServiceState) : ServiceState :=
  { s with prefs := ⟨s.deviceId, s.serverUrl, true⟩ }

/-- `restoreStateFromPreferences()`: reads `device_id` and `server_url`
back into the service fields.  (The source never reads `is_tracking`
here.) -/
def restoreStateFromPreferences (s : ServiceState) : ServiceState :=
  { s with deviceId := s.prefs.device_id, serverUrl := s.prefs.server_url }

/-- `clearStateFromPreferences()`: sets `is_tracking = false` and removes
`device_id` and `server_url`. -/
def clearStateFromPreferences (s : ServiceState) : ServiceState :=
  { s with prefs := ⟨none, none, false⟩ }

/-- `stopTracking()`: returns if not tracking; otherwise clears the flag,
removes the location-update subscription and releases the wake lock. -/
def stopTracking (s : ServiceState) : ServiceState :=
  if s.isTracking = false then s
  else { s with isTracking := false, subscriptions := 0, wakeLockHeld := false }

/-- `onDestroy()`: stops tracking and persists health status "offline"
(the effect of `stopSelf()` once the service is torn down). -/
def onDestroy (s : ServiceState) : ServiceState :=
  saveHealthData (stopTracking s) "offline"

/-- `startTracking()`: a no-op when already tracking; otherwise sets the
flag, acquires the wake lock, and requests location updates when a
provider is enabled, else stops the service.  (Notification posting and
the `SecurityException` path are environmental and not modelled.) -/
def startTracking (s : ServiceState) : ServiceState :=
  if s.isTracking = true then s
  else
    let s1 : ServiceState := { s with isTracking := true, wakeLockHeld := true }
    if s1.gpsProviderEnabled = true ∨ s1.networkProviderEnabled = true then
      { s1 with subscriptions := s1.subscriptions + 1 }
    else onDestroy s1

/-- `onStartCommand` with `ACTION_START`: stores the intent extras into
`deviceId`/`serverUrl`, saves state to preferences, then starts
tracking. -/
def handleStart (d u : String) (s : ServiceState) : ServiceState :=
  startTracking (saveStateToPreferences { s with deviceId := some d, serverUrl := some u })

/-- `onStartCommand` with `ACTION_STOP`: stops tracking, clears the
durable state, then the service stops itself (`onDestroy`). -/
def handleStop (s : ServiceState) : ServiceState :=
  onDestroy (clearStateFromPreferences (stopTracking s))

/-- `onStartCommand` with a null intent (process restarted by the system):
restores `deviceId`/`serverUrl` from preferences and restarts tracking
when both are present, otherwise stops the service. -/
def onProcessRestart (s : ServiceState) : ServiceState :=
  let s1 := restoreStateFromPreferences s
  if s1.deviceId.isSome = true ∧ s1.serverUrl.isSome = true then startTracking s1
  else onDestroy s1

/-- The operations that touch the service state, for stating invariants
over arbitrary interleavings.  `networkAvailable` is the connectivity
callback `onAvailable` (sets the flag then flushes); `networkLost` is
`onLost`. -/
inductive Step where
  | locationChanged (loc : Location) (outcome : SendOutcome) (now : Int) (netCheck : Bool)
  | directSend (loc : Location) (isQueued : Bool) (outcome : SendOutcome) (now : Int)
      (netCheck : Bool)
  | flush (outs : List SendOutcome) (now : Int) (netCheck : Bool)
  | networkAvailable (outs : List SendOutcome) (now : Int) (netCheck : Bool)
  | networkLost
  | startCmd (d u : String)
  | stopCmd
  | processRestart

/-- Interpretation of one `Step` as the corresponding handler. -/
def applyStep (s : ServiceState) : Step → ServiceState
  | Step.locationChanged loc out now nc => (onLocationChanged s loc out now nc).1
  | Step.directSend loc iq out now nc => sendLocationToServer s loc iq out now nc
  | Step.flush outs now nc => flushLocationQueue s outs now nc
  | Step.networkAvailable outs now nc =>
      flushLocationQueue { s with isNetworkAvailable := true } outs now nc
  | Step.networkLost => { s with isNetworkAvailable := false }
  | Step.startCmd d u => handleStart d u s
  | Step.stopCmd => handleStop s
  | Step.processRestart => onProcessRestart s

/-- Did a send outcome count as a success (`responseCode in 200..299`)? -/
def isSuccess (o : SendOutcome) : Bool :=
  match o with
  | SendOutcome.response code => decide (200 ≤ code ∧ code ≤ 299)
  | SendOutcome.ioError => false
  | SendOutcome.otherError => false

/-- A fresh service-process state: nothing tracked, empty queue, network
believed available, providers enabled. -/
def baseState : ServiceState where
  isTracking := false
  deviceId := none
  serverUrl := none
  isNetworkAvailable := true
  locationQueue := []
  lastSuccessfulSendTime := 0
  consecutiveFailures := 0
  prefs := ⟨none, none, false⟩
  savedStatus := none
  savedLastSuccess := 0
  wakeLockHeld := false
  subscriptions := 0
  gpsProviderEnabled := true
  networkProviderEnabled := true

/-- A concrete sample with good accuracy, tagged by `i`. -/
def sampleLoc (i : Nat) : Location := ⟨0, 0, 10, i⟩

/-- A state in which tracking runs with identity "d" and endpoint "u",
as produced by a successful `handleStart "d" "u"`. -/
def runningState : ServiceState :=
  { baseState with
    isTracking := true
    deviceId := some "d"
    serverUrl := some "u"
    prefs := ⟨some "d", some "u", true⟩
    wakeLockHeld := true
    subscriptions := 1 }

/-- A fresh process whose durable state holds identity and endpoint but
`is_tracking = false`. -/
def restartPrefsState : ServiceState :=
  { baseState with prefs := ⟨some "d", some "u", false⟩ }

/-- A tracking state with three samples waiting in the queue. -/
def threeQueuedState : ServiceState :=
  { baseState with
    isTracking := true
    deviceId := some "d"
    serverUrl := some "u"
    locationQueue := [sampleLoc 1, sampleLoc 2, sampleLoc 3] }

theorem saveHealthData_locationQueue (s : ServiceState) (st : String) :
    (saveHealthData s st).locationQueue = s.locationQueue := rfl

theorem staleCheck_locationQueue (s : ServiceState) :
    (staleCheck s).locationQueue = s.locationQueue := by
  unfold staleCheck
  split <;> rfl

theorem staleCheck_isNetworkAvailable (s : ServiceState) :
    (staleCheck s).isNetworkAvailable = s.isNetworkAvailable := by
  unfold staleCheck
  split <;> rfl

theorem staleCheck_consecutiveFailures (s : ServiceState) :
    (staleCheck s).consecutiveFailures = s.consecutiveFailures := by
  unfold staleCheck
  split <;> rfl

theorem staleCheck_savedStatus (s : ServiceState) :
    (staleCheck s).savedStatus =
      if MAX_CONSECUTIVE_FAILURES ≤ s.consecutiveFailures then some "stale"
      else s.savedStatus := by
  unfold staleCheck
  split <;> rfl

theorem foldl_enqueue_eq_append_take (locs : List Location) :
    ∀ q : List Location, q.length ≤ MAX_QUEUE_SIZE →
      List.foldl enqueue q locs = q ++ locs.take (MAX_QUEUE_SIZE - q.length) := by
  induction locs with
  | nil => intro q h; simp
  | cons x xs ih =>
      intro q h
      by_cases hq : q.length < MAX_QUEUE_SIZE
      · have h1 : enqueue q x = q ++ [x] := by simp [enqueue, hq]
        have h2 : (q ++ [x]).length ≤ MAX_QUEUE_SIZE := by
          simp only [List.length_append, List.length_singleton]; omega
        rw [List.foldl_cons, h1, ih (q ++ [x]) h2]
        have h3 : MAX_QUEUE_SIZE - q.length = (MAX_QUEUE_SIZE - (q.length + 1)) + 1 := by
          omega
        rw [h3, List.take_succ_cons]
        simp [List.append_assoc]
      · have h1 : enqueue q x = q := by simp [enqueue, hq]
        have h2 : MAX_QUEUE_SIZE - q.length = 0 := by omega
        rw [List.foldl_cons, h1, ih q h, h2]
        simp

end DeviceTracker

namespace DeviceTracker

/-- C1: the claim asserts FIFO eviction on overflow.  On the code, the
101st enqueue into a full queue drops the NEW sample (the guarded offer
in `onLocationChanged` never evicts), so after enqueueing 101 distinct
samples the retained entries are the FIRST 100, not the
most-recently-enqueued 100 (which would be `drop 1`). -/
theorem C1_counterexample :
    List.foldl enqueue [] ((List.range 101).map sampleLoc) =
      ((List.range 101).map sampleLoc).take 100 ∧
    List.foldl enqueue [] ((List.range 101).map sampleLoc) ≠
      ((List.range 101).map sampleLoc).drop 1 := by
  set_option maxRecDepth 8000 in decide

/-- C1 (amended): for every sequence of enqueue operations on the
delivery queue, the queue length never exceeds MAX_QUEUE_SIZE, and once
capacity is reached the NEW sample is dropped, so the retained entries
are exactly the EARLIEST-enqueued MAX_QUEUE_SIZE samples in their
original relative order (`take`, not the most recent). -/
theorem C1_amended_drop_newest (locs : List Location) :
    List.foldl enqueue [] locs = locs.take MAX_QUEUE_SIZE ∧
    (List.foldl enqueue [] locs).length ≤ MAX_QUEUE_SIZE := by
  have h := foldl_enqueue_eq_append_take locs [] (by simp)
  simp only [List.nil_append, List.length_nil, Nat.sub_zero] at h
  refine ⟨h, ?_⟩
  rw [h]
  exact List.length_take_le _ _

end DeviceTracker

namespace DeviceTracker

/-- C2: the claim asserts that the process-restart resume path acts only
when the persisted `is_tracking` flag is true.  On the code,
`restoreStateFromPreferences` never reads `is_tracking`: with durable
state `{device_id = "d", server_url = "u", is_tracking = false}` the
restart path still re-enters tracking, refuting "otherwise the agent
remains Stopped". -/
theorem C2_counterexample :
    restartPrefsState.prefs.is_tracking = false ∧
    (onProcessRestart restartPrefsState).isTracking = true := by
  constructor <;> rfl

/-- C2 (amended): the process-restart path ignores the persisted
`is_tracking` flag; for a freshly restarted (not-tracking) process with a
location provider enabled, it re-enters tracking if and only if the
durable state holds both a device id and a server url. -/
theorem C2_amended_resume_gate (s : ServiceState) (h1 : s.isTracking = false)
    (h2 : s.gpsProviderEnabled = true ∨ s.networkProviderEnabled = true) :
    (onProcessRestart s).isTracking = true ↔
      (s.prefs.device_id.isSome = true ∧ s.prefs.server_url.isSome = true) := by
  by_cases hd : s.prefs.device_id.isSome = true <;>
    by_cases hu : s.prefs.server_url.isSome = true <;>
      rcases h2 with h2 | h2 <;>
        simp [onProcessRestart, restoreStateFromPreferences, startTracking, onDestroy,
          stopTracking, saveHealthData, h1, h2, hd, hu]

/-- C2 witness: at the concrete counterexample state the amended gate
fires: both durable fields are present, so the restart resumes. -/
theorem C2_amended_witness :
    (onProcessRestart restartPrefsState).isTracking = true :=
  (C2_amended_resume_gate restartPrefsState rfl (Or.inl rfl)).mpr ⟨rfl, rfl⟩

/-- C8: calling start while already tracking is a no-op.  A second
`ACTION_START` with the same identity and endpoint rewrites the same
durable values and then `startTracking` returns on its `isTracking`
guard, leaving the whole service state (including wake lock and
subscription count) unchanged. -/
theorem C8_start_idempotent (s : ServiceState) (d u : String)
    (h1 : s.isTracking = true) (h2 : s.deviceId = some d) (h3 : s.serverUrl = some u)
    (h4 : s.prefs = ⟨some d, some u, true⟩) :
    handleStart d u s = s := by
  cases s
  simp_all [handleStart, saveStateToPreferences, startTracking]

/-- C8 witness: a second start on the concrete running state is the
identity. -/
theorem C8_witness : handleStart "d" "u" runningState = runningState :=
  C8_start_idempotent runningState "d" "u" rfl rfl rfl rfl

/-- C9: stop followed by a process restart does not resume tracking:
`ACTION_STOP` persists `is_tracking = false` (and removes the identity
and endpoint), and the subsequent null-intent restart finds no stored
identity/endpoint and leaves the service not tracking. -/
theorem C9_stop_then_restart (s : ServiceState) (h : s.isTracking = true) :
    (handleStop s).prefs.is_tracking = false ∧
    (handleStop s).isTracking = false ∧
    (onProcessRestart (handleStop s)).isTracking = false := by
  simp [handleStop, onProcessRestart, clearStateFromPreferences, stopTracking, onDestroy,
    saveHealthData, restoreStateFromPreferences, h]

/-- C9 witness: stopping the concrete running state and restarting leaves
the agent stopped. -/
theorem C9_witness :
    (handleStop runningState).prefs.is_tracking = false ∧
    (handleStop runningState).isTracking = false ∧
    (onProcessRestart (handleStop runningState)).isTracking = false :=
  C9_stop_then_restart runningState rfl

end DeviceTracker

namespace DeviceTracker

/-- C5: the two-tier accuracy gate of `onLocationChanged`.  Any sample
with accuracy above 30 m — in particular any sample above the 50 m hard
ceiling — leaves the state unchanged and is neither sent immediately nor
queued, so only samples at or below 30 m are ever forwarded to delivery;
samples in the 30–50 m band are neither delivered nor queued. -/
theorem C5_accuracy_gate (s : ServiceState) (loc : Location) (out : SendOutcome)
    (now : Int) (nc : Bool) (h : 30 < loc.accuracy) :
    (onLocationChanged s loc out now nc).1 = s ∧
    (onLocationChanged s loc out now nc).2 ≠ Disposition.sentImmediate ∧
    (onLocationChanged s loc out now nc).2 ≠ Disposition.queuedOffline := by
  have h3 : ¬ (loc.accuracy ≤ 30 ∧ s.deviceId.isSome = true ∧ s.serverUrl.isSome = true) := by
    rintro ⟨h30, -⟩
    exact absurd h (not_lt.mpr h30)
  unfold onLocationChanged
  rw [if_neg h3]
  split
  · simp
  · split <;> simp

/-- C5 witness: a 51 m sample (above the hard ceiling) on the tracking
base state is dropped, and a 40 m sample (between the thresholds) is
neither sent nor queued. -/
theorem C5_witness :
    ((onLocationChanged runningState ⟨0, 0, 51, 0⟩ SendOutcome.ioError 0 true).1
        = runningState ∧
      (onLocationChanged runningState ⟨0, 0, 51, 0⟩ SendOutcome.ioError 0 true).2
        ≠ Disposition.queuedOffline) ∧
    ((onLocationChanged runningState ⟨0, 0, 40, 0⟩ SendOutcome.ioError 0 true).1
        = runningState ∧
      (onLocationChanged runningState ⟨0, 0, 40, 0⟩ SendOutcome.ioError 0 true).2
        ≠ Disposition.sentImmediate) := by
  have h51 := C5_accuracy_gate runningState ⟨0, 0, 51, 0⟩ SendOutcome.ioError 0 true
    (by norm_num)
  have h40 := C5_accuracy_gate runningState ⟨0, 0, 40, 0⟩ SendOutcome.ioError 0 true
    (by norm_num)
  exact ⟨⟨h51.1, h51.2.2⟩, ⟨h40.1, h40.2.1⟩⟩

theorem send_queued_failure_step (t : ServiceState) (loc : Location) (o : SendOutcome)
    (now : Int) (nc : Bool) (ho : isSuccess o = false) :
    (sendLocationToServer t loc true o now nc).consecutiveFailures
        = t.consecutiveFailures + 1 ∧
    (sendLocationToServer t loc true o now nc).savedStatus =
      (if MAX_CONSECUTIVE_FAILURES ≤ t.consecutiveFailures + 1 then some "stale"
       else t.savedStatus) := by
  cases o with
  | response code =>
      have hc : ¬ (200 ≤ code ∧ code ≤ 299) := by
        simpa [isSuccess] using ho
      simp [sendLocationToServer, hc, staleCheck_consecutiveFailures, staleCheck_savedStatus]
  | ioError =>
      simp [sendLocationToServer, staleCheck_consecutiveFailures, staleCheck_savedStatus]
  | otherError =>
      simp [sendLocationToServer, staleCheck_consecutiveFailures, staleCheck_savedStatus]

theorem foldl_queued_failures (loc : Location) (now : Int) (nc : Bool) :
    ∀ (outs : List SendOutcome) (s : ServiceState),
      (∀ o ∈ outs, isSuccess o = false) →
      ((outs.foldl (fun t o => sendLocationToServer t loc true o now nc) s).consecutiveFailures
          = s.consecutiveFailures + outs.length) ∧
      (outs ≠ [] → MAX_CONSECUTIVE_FAILURES ≤ s.consecutiveFailures + outs.length →
        (outs.foldl (fun t o => sendLocationToServer t loc true o now nc) s).savedStatus
          = some "stale") := by
  intro outs
  induction outs with
  | nil => intro s _; simp
  | cons o rest ih =>
      intro s h
      have step := send_queued_failure_step s loc o now nc (h o (by simp))
      have ihr := ih (sendLocationToServer s loc true o now nc)
        (fun x hx => h x (by simp [hx]))
      constructor
      · rw [List.foldl_cons, ihr.1, step.1]
        simp only [List.length_cons]
        omega
      · intro _ hge
        rw [List.foldl_cons]
        cases rest with
        | nil =>
            simp only [List.foldl_nil]
            rw [step.2, if_pos]
            simp only [List.length_cons, List.length_nil] at hge
            omega
        | cons y ys =>
            apply ihr.2 (by simp)
            rw [step.1]
            simp only [List.length_cons] at hge ⊢
            omega

/-- C6: five consecutive failed sends with no intervening success drive
the persisted health status (the value `query()` reads) to "stale", and
each failed send increments `consecutiveFailures` by exactly one. -/
theorem C6_failure_streak (s : ServiceState) (loc : Location) (outs : List SendOutcome)
    (now : Int) (nc : Bool)
    (hfail : ∀ o ∈ outs, isSuccess o = false) (hlen : outs.length = 5) :
    ((outs.foldl (fun t o => sendLocationToServer t loc true o now nc) s).consecutiveFailures
        = s.consecutiveFailures + 5) ∧
    ((outs.foldl (fun t o => sendLocationToServer t loc true o now nc) s).savedStatus
        = some "stale") ∧
    (∀ (t : ServiceState) (o : SendOutcome), isSuccess o = false →
      (sendLocationToServer t loc true o now nc).consecutiveFailures
        = t.consecutiveFailures + 1) := by
  have h := foldl_queued_failures loc now nc outs s hfail
  refine ⟨by rw [h.1, hlen], ?_, fun t o ho => (send_queued_failure_step t loc o now nc ho).1⟩
  apply h.2 (by rintro rfl; simp at hlen)
  rw [hlen]
  simp [MAX_CONSECUTIVE_FAILURES]

/-- C6 witness: five network-error sends from the base state leave a
failure streak of five and persisted status "stale". -/
theorem C6_witness :
    (((List.replicate 5 SendOutcome.ioError).foldl
        (fun t o => sendLocationToServer t (sampleLoc 0) true o 0 true)
        baseState).consecutiveFailures = baseState.consecutiveFailures + 5) ∧
    (((List.replicate 5 SendOutcome.ioError).foldl
        (fun t o => sendLocationToServer t (sampleLoc 0) true o 0 true)
        baseState).savedStatus = some "stale") :=
  have h := C6_failure_streak baseState (sampleLoc 0) (List.replicate 5 SendOutcome.ioError)
    0 true (by intro o ho; simp [List.eq_of_mem_replicate ho, isSuccess]) rfl
  ⟨h.1, h.2.1⟩

end DeviceTracker

namespace DeviceTracker

/-- C7: for a send that actually reaches the network (network believed
available, or a queued send), the outcome is a success exactly when the
HTTP status is in 200–299: a 2xx response sets `lastSuccessfulSendTime`
to now, resets `consecutiveFailures` to 0 and persists status "online"
(with the success time), while any non-2xx response, I/O error, or other
error increments the failure streak by one. -/
theorem C7_success_iff_2xx (s : ServiceState) (loc : Location) (iq : Bool) (c : Int)
    (now : Int) (nc : Bool) (h : s.isNetworkAvailable = true ∨ iq = true) :
    (200 ≤ c ∧ c ≤ 299 →
      (sendLocationToServer s loc iq (SendOutcome.response c) now nc).lastSuccessfulSendTime
          = now ∧
      (sendLocationToServer s loc iq (SendOutcome.response c) now nc).consecutiveFailures
          = 0 ∧
      (sendLocationToServer s loc iq (SendOutcome.response c) now nc).savedStatus
          = some "online" ∧
      (sendLocationToServer s loc iq (SendOutcome.response c) now nc).savedLastSuccess
          = now) ∧
    (¬ (200 ≤ c ∧ c ≤ 299) →
      (sendLocationToServer s loc iq (SendOutcome.response c) now nc).consecutiveFailures
          = s.consecutiveFailures + 1) ∧
    ((sendLocationToServer s loc iq SendOutcome.ioError now nc).consecutiveFailures
        = s.consecutiveFailures + 1) ∧
    ((sendLocationToServer s loc iq SendOutcome.otherError now nc).consecutiveFailures
        = s.consecutiveFailures + 1) := by
  have hng : ¬ (s.isNetworkAvailable = false ∧ iq = false) := by
    rcases h with h | h <;> simp [h]
  refine ⟨fun hc => ?_, fun hc => ?_, ?_, ?_⟩
  · simp [sendLocationToServer, hng, hc, saveHealthData]
  · simp [sendLocationToServer, hng, hc, staleCheck_consecutiveFailures]
  · simp only [sendLocationToServer, if_neg hng, staleCheck_consecutiveFailures]
    split <;> rfl
  · simp [sendLocationToServer, hng, staleCheck_consecutiveFailures]

/-- C7 witness: from the base state, a 200 response records the success
time and "online"; a 404 response and a network error each increment the
failure streak. -/
theorem C7_witness :
    ((sendLocationToServer baseState (sampleLoc 0) false (SendOutcome.response 200) 7
        true).lastSuccessfulSendTime = 7) ∧
    ((sendLocationToServer baseState (sampleLoc 0) false (SendOutcome.response 200) 7
        true).savedStatus = some "online") ∧
    ((sendLocationToServer baseState (sampleLoc 0) false (SendOutcome.response 404) 7
        true).consecutiveFailures = baseState.consecutiveFailures + 1) ∧
    ((sendLocationToServer baseState (sampleLoc 0) false SendOutcome.ioError 7
        true).consecutiveFailures = baseState.consecutiveFailures + 1) := by
  have h := C7_success_iff_2xx baseState (sampleLoc 0) false 200 7 true (Or.inl rfl)
  have h4 := C7_success_iff_2xx baseState (sampleLoc 0) false 404 7 true (Or.inl rfl)
  exact ⟨(h.1 (by decide)).1, (h.1 (by decide)).2.2.1, h4.2.1 (by decide), h.2.2.1⟩

/-- C10: for a direct (non-queued) send attempted while the network is
believed available, a non-2xx HTTP response (and likewise any non-I/O
error) leaves the delivery queue unchanged — the sample is discarded, not
retried — while an `IOException` is the only failure that enqueues the
sample for later retry (when the queue has room). -/
theorem C10_non2xx_discarded (s : ServiceState) (loc : Location) (c : Int)
    (now : Int) (nc : Bool) (h : s.isNetworkAvailable = true) :
    (¬ (200 ≤ c ∧ c ≤ 299) →
      (sendLocationToServer s loc false (SendOutcome.response c) now nc).locationQueue
        = s.locationQueue) ∧
    ((sendLocationToServer s loc false SendOutcome.otherError now nc).locationQueue
        = s.locationQueue) ∧
    ((sendLocationToServer s loc false SendOutcome.ioError now nc).locationQueue
        = if s.locationQueue.length < MAX_QUEUE_SIZE then s.locationQueue ++ [loc]
          else s.locationQueue) := by
  refine ⟨fun hc => ?_, ?_, ?_⟩
  · simp [sendLocationToServer, h, hc, staleCheck_locationQueue]
  · simp [sendLocationToServer, h, staleCheck_locationQueue]
  · simp [sendLocationToServer, h, staleCheck_locationQueue]
    split <;> simp

/-- C10 witness: from the base state (network available, empty queue), a
404 response leaves the queue empty while a network error queues the
sample. -/
theorem C10_witness :
    ((sendLocationToServer baseState (sampleLoc 0) false (SendOutcome.response 404) 0
        true).locationQueue = baseState.locationQueue) ∧
    ((sendLocationToServer baseState (sampleLoc 0) false SendOutcome.ioError 0
        true).locationQueue = baseState.locationQueue ++ [sampleLoc 0]) := by
  have h := C10_non2xx_discarded baseState (sampleLoc 0) 404 0 true rfl
  refine ⟨h.1 (by decide), ?_⟩
  rw [h.2.2]
  simp [baseState, MAX_QUEUE_SIZE]

end DeviceTracker

namespace DeviceTracker

theorem send_queued_locationQueue (t : ServiceState) (loc : Location) (o : SendOutcome)
    (now : Int) (nc : Bool) :
    (sendLocationToServer t loc true o now nc).locationQueue = t.locationQueue := by
  cases o with
  | response code =>
      simp only [sendLocationToServer]
      rw [if_neg (by simp)]
      split
      · simp [saveHealthData]
      · simp [staleCheck_locationQueue]
  | ioError =>
      simp only [sendLocationToServer]
      rw [if_neg (by simp), staleCheck_locationQueue]
      simp
  | otherError =>
      simp only [sendLocationToServer]
      rw [if_neg (by simp), staleCheck_locationQueue]

theorem runPostedSends_locationQueue (now : Int) (nc : Bool) :
    ∀ (locs : List Location) (outs : List SendOutcome) (s : ServiceState),
      (runPostedSends s locs outs now nc).locationQueue = s.locationQueue := by
  intro locs
  induction locs with
  | nil => intro outs s; rfl
  | cons loc ls ih =>
      intro outs s
      cases outs with
      | nil => rfl
      | cons o os =>
          rw [runPostedSends, ih os _, send_queued_locationQueue]

/-- C3: the claim asserts that a failed send during a drain re-enqueues
the failed entry at the front and stops the drain, so that after send #2
of 3 fails the queue holds samples #2 and #3.  On the code, the drain
loop runs on the single-threaded executor and `sendLocationToServer`
only posts its body to that same executor, so all three entries are
polled and their sends posted before any send body runs; sample #2's
network error drops it (the re-offer applies only to direct sends) and
sample #3's posted send is still attempted.  At the claimed scenario the
queue ends empty — not `[#2, #3]` — and the persisted "online" status
shows the send after the failure ran. -/
theorem C3_counterexample :
    (flushLocationQueue threeQueuedState
        [SendOutcome.response 200, SendOutcome.ioError, SendOutcome.response 200]
        5 true).locationQueue = [] ∧
    (flushLocationQueue threeQueuedState
        [SendOutcome.response 200, SendOutcome.ioError, SendOutcome.response 200]
        5 true).locationQueue ≠ [sampleLoc 2, sampleLoc 3] ∧
    (flushLocationQueue threeQueuedState
        [SendOutcome.response 200, SendOutcome.ioError, SendOutcome.response 200]
        5 true).savedStatus = some "online" := by
  decide

/-- C3 (amended): a drain empties the queue regardless of send outcomes:
the drain task polls every entry and posts its send before any send body
runs, and a queued send never re-enqueues its sample — on a network
error the failed entry is dropped (the re-offer in the IOException
handler applies only to direct sends), while the remaining posted sends
are still attempted.  So after a drain that starts with connectivity
believed available and a nonempty queue, the queue contains nothing:
neither the failed entry nor the entries after it. -/
theorem C3_amended_failed_entry_dropped (s : ServiceState) (outs : List SendOutcome)
    (now : Int) (nc : Bool) (hnet : s.isNetworkAvailable = true)
    (hq : s.locationQueue ≠ []) :
    (flushLocationQueue s outs now nc).locationQueue = [] ∧
    (∀ (t : ServiceState) (loc : Location) (o : SendOutcome),
      (sendLocationToServer t loc true o now nc).locationQueue = t.locationQueue) := by
  constructor
  · rw [flushLocationQueue, if_neg (by simp [hnet, hq])]
    rw [runPostedSends_locationQueue]
  · exact fun t loc o => send_queued_locationQueue t loc o now nc

/-- C3 witness: draining the concrete three-sample queue with outcomes
success, network error, success leaves the queue empty. -/
theorem C3_amended_witness :
    (flushLocationQueue threeQueuedState
        [SendOutcome.response 200, SendOutcome.ioError, SendOutcome.response 200]
        5 true).locationQueue = [] :=
  (C3_amended_failed_entry_dropped threeQueuedState
      [SendOutcome.response 200, SendOutcome.ioError, SendOutcome.response 200]
      5 true rfl (by decide)).1

end DeviceTracker

namespace DeviceTracker

theorem enqueue_length_le (q : List Location) (loc : Location)
    (h : q.length ≤ MAX_QUEUE_SIZE) : (enqueue q loc).length ≤ MAX_QUEUE_SIZE := by
  unfold enqueue
  split
  · rename_i hlt
    simp only [List.length_append, List.length_singleton]
    omega
  · exact h

theorem send_length_le (s : ServiceState) (loc : Location) (iq : Bool) (out : SendOutcome)
    (now : Int) (nc : Bool) (h : s.locationQueue.length ≤ MAX_QUEUE_SIZE) :
    (sendLocationToServer s loc iq out now nc).locationQueue.length ≤ MAX_QUEUE_SIZE := by
  cases out with
  | response code =>
      simp only [sendLocationToServer]
      split
      · exact enqueue_length_le _ _ h
      · split
        · rw [saveHealthData_locationQueue]
          exact h
        · rw [staleCheck_locationQueue]
          exact h
  | ioError =>
      simp only [sendLocationToServer]
      split
      · exact enqueue_length_le _ _ h
      · rw [staleCheck_locationQueue]
        split
        · rename_i hc
          obtain ⟨h1, -⟩ := hc
          simp only [List.length_append, List.length_singleton]
          omega
        · exact h
  | otherError =>
      simp only [sendLocationToServer]
      split
      · exact enqueue_length_le _ _ h
      · rw [staleCheck_locationQueue]
        exact h

theorem onLocationChanged_length_le (s : ServiceState) (loc : Location) (out : SendOutcome)
    (now : Int) (nc : Bool) (h : s.locationQueue.length ≤ MAX_QUEUE_SIZE) :
    (onLocationChanged s loc out now nc).1.locationQueue.length ≤ MAX_QUEUE_SIZE := by
  unfold onLocationChanged
  split
  · exact h
  · split
    · exact h
    · split
      · split
        · exact send_length_le s loc false out now nc h
        · split
          · rename_i hlt
            simp only [List.length_append, List.length_singleton]
            omega
          · exact h
      · exact h

theorem stopTracking_locationQueue (s : ServiceState) :
    (stopTracking s).locationQueue = s.locationQueue := by
  unfold stopTracking
  split <;> rfl

theorem onDestroy_locationQueue (s : ServiceState) :
    (onDestroy s).locationQueue = s.locationQueue := by
  unfold onDestroy
  rw [saveHealthData_locationQueue, stopTracking_locationQueue]

theorem startTracking_locationQueue (s : ServiceState) :
    (startTracking s).locationQueue = s.locationQueue := by
  simp only [startTracking]
  split
  · rfl
  · split
    · rfl
    · rw [onDestroy_locationQueue]

theorem handleStart_locationQueue (d u : String) (s : ServiceState) :
    (handleStart d u s).locationQueue = s.locationQueue := by
  unfold handleStart saveStateToPreferences
  rw [startTracking_locationQueue]

theorem handleStop_locationQueue (s : ServiceState) :
    (handleStop s).locationQueue = s.locationQueue := by
  unfold handleStop clearStateFromPreferences
  rw [onDestroy_locationQueue]
  exact stopTracking_locationQueue s

theorem onProcessRestart_locationQueue (s : ServiceState) :
    (onProcessRestart s).locationQueue = s.locationQueue := by
  simp only [onProcessRestart, restoreStateFromPreferences]
  split
  · rw [startTracking_locationQueue]
  · rw [onDestroy_locationQueue]

theorem applyStep_length_le (s : ServiceState) (st : Step)
    (h : s.locationQueue.length ≤ MAX_QUEUE_SIZE) :
    (applyStep s st).locationQueue.length ≤ MAX_QUEUE_SIZE := by
  cases st with
  | locationChanged loc out now nc => exact onLocationChanged_length_le s loc out now nc h
  | directSend loc iq out now nc => exact send_length_le s loc iq out now nc h
  | flush outs now nc =>
      show (flushLocationQueue s outs now nc).locationQueue.length ≤ MAX_QUEUE_SIZE
      unfold flushLocationQueue
      split
      · exact h
      · rw [runPostedSends_locationQueue]
        exact Nat.zero_le _
  | networkAvailable outs now nc =>
      show (flushLocationQueue { s with isNetworkAvailable := true } outs
        now nc).locationQueue.length ≤ MAX_QUEUE_SIZE
      unfold flushLocationQueue
      split
      · exact h
      · rw [runPostedSends_locationQueue]
        exact Nat.zero_le _
  | networkLost => exact h
  | startCmd d u =>
      show (handleStart d u s).locationQueue.length ≤ MAX_QUEUE_SIZE
      rw [handleStart_locationQueue]
      exact h
  | stopCmd =>
      show (handleStop s).locationQueue.length ≤ MAX_QUEUE_SIZE
      rw [handleStop_locationQueue]
      exact h
  | processRestart =>
      show (onProcessRestart s).locationQueue.length ≤ MAX_QUEUE_SIZE
      rw [onProcessRestart_locationQueue]
      exact h

/-- C4: over every sequence of the service's operations (sample arrival,
direct send, queue drain, connectivity callbacks, start/stop/restart),
starting from any state within the bound, the delivery queue never holds
more than MAX_QUEUE_SIZE entries — every offer site of the source is
guarded by `locationQueue.size < MAX_QUEUE_SIZE`. -/
theorem C4_queue_bound (steps : List Step) (s : ServiceState)
    (h : s.locationQueue.length ≤ MAX_QUEUE_SIZE) :
    (steps.foldl applyStep s).locationQueue.length ≤ MAX_QUEUE_SIZE := by
  induction steps generalizing s with
  | nil => exact h
  | cons st rest ih => exact ih _ (applyStep_length_le s st h)

/-- C4 witness: a concrete interleaving of network loss, a queued sample
and a failing direct send stays within the bound. -/
theorem C4_witness :
    (([Step.networkLost,
        Step.locationChanged (sampleLoc 0) SendOutcome.ioError 0 true,
        Step.directSend (sampleLoc 1) false SendOutcome.ioError 0 true]).foldl applyStep
        baseState).locationQueue.length ≤ MAX_QUEUE_SIZE :=
  C4_queue_bound _ baseState (by decide)

end DeviceTracker
